import Mathlib

/- Verification of the tiered liveness supervision and recovery subsystem of the
   MVision hospital-monitor repository: the watchdog daemon configurations, the
   resilience and setup scripts, the web API status surface, the log viewer
   vocabulary and the password-change form, together with the heartbeat
   classification, resource debouncing and restart-budget logic described by the
   specification (the supervision core itself ships only as configuration in the
   sources). -/

/-- Freshness classification of a heartbeat observation. -/
inductive Classification where
  | Fresh
  | Stale
  deriving DecidableEq, Repr

/-- A watchdog daemon configuration as written to /etc/watchdog.conf:
    hardware timeout, daemon check interval, load ceiling, memory floor (pages)
    and the heartbeat-file change window, all in the units used by the files. -/
structure WatchdogConf where
  watchdogTimeout : Nat
  interval : Nat
  maxLoad1 : Nat
  minMemory : Nat
  heartbeatChange : Nat
  deriving DecidableEq, Repr

/-- The hospital-monitor watchdog configuration written by the part_002
    setup-watchdog script: timeout 15, interval 10, max-load-1 24,
    min-memory 1, change 90. -/
def hospitalWatchdogConf : WatchdogConf :=
  WatchdogConf.mk 15 10 24 1 90

/-- The watchdog configuration written by deploy/setup-watchdog.sh:
    timeout 15, interval 5, max-load-1 24, min-memory 1, change 120. -/
def deployWatchdogConf : WatchdogConf :=
  WatchdogConf.mk 15 5 24 1 120

/-- Modelled from the spec: HeartbeatMonitor classification (the classifying
    daemon is not among the sources; the thresholds are). An age is Fresh when
    it is at most the staleness window, Stale otherwise. -/
def classify (ageSeconds heartbeatStaleSeconds : Nat) : Classification :=
  if ageSeconds ≤ heartbeatStaleSeconds then Classification.Fresh else Classification.Stale

/-- Result of reading the liveness record: the file may be absent, unreadable,
    semantically malformed, or hold a valid epoch-seconds timestamp. -/
inductive ReadResult where
  | absent
  | unreadable
  | malformed (raw : String)
  | valid (timestamp : Nat)
  deriving DecidableEq

/-- A record is corrupt when it is anything but a valid timestamp. -/
def ReadResult.isCorrupt : ReadResult → Bool
  | ReadResult.valid _ => false
  | _ => true

/-- A heartbeat observation: age in seconds, with `none` encoding +infinity,
    and the resulting classification. -/
structure Observation where
  ageSeconds : Option Nat
  classification : Classification
  deriving DecidableEq

/-- Modelled from the spec: HeartbeatMonitor.observe (the monitor itself is not
    among the sources). A valid record yields the truncated age, which clamps a
    future timestamp to zero; anything else yields infinite age and Stale. The
    function is total, so no observation can fail. -/
def observe (now heartbeatStaleSeconds : Nat) : ReadResult → Observation
  | ReadResult.valid t =>
      Observation.mk (some (now - t)) (classify (now - t) heartbeatStaleSeconds)
  | _ => Observation.mk none Classification.Stale

/-- The three controlled fields of the password-change form (PasswordChange.tsx). -/
structure PasswordForm where
  currentPassword : String
  newPassword : String
  confirmPassword : String
  deriving DecidableEq

/-- Validation toasts raised by the form's handleSubmit before any request. -/
inductive PasswordToast where
  | passwordsDoNotMatch
  | passwordTooShort
  deriving DecidableEq

/-- Outcome of the synchronous part of handleSubmit: either the input is
    rejected with a toast, leaving the given field values in place, or a
    changePassword request is issued with the entered passwords. -/
inductive SubmitOutcome where
  | rejected (toast : PasswordToast) (fields : PasswordForm)
  | submitted (currentPassword newPassword : String)
  deriving DecidableEq

/-- handleSubmit of PasswordChange.tsx: mismatching confirmation is rejected
    first, then a new password shorter than 6 characters; only then is the
    changePassword request issued. -/
def handleSubmit (s : PasswordForm) : SubmitOutcome :=
  if s.newPassword ≠ s.confirmPassword then
    SubmitOutcome.rejected PasswordToast.passwordsDoNotMatch s
  else if s.newPassword.length < 6 then
    SubmitOutcome.rejected PasswordToast.passwordTooShort s
  else
    SubmitOutcome.submitted s.currentPassword s.newPassword

/-- C2 counterexample: in the hospital-monitor watchdog configuration the
    daemon refresh interval is 10 s against the 15 s armed hardware timeout,
    which is not below half the timeout. -/
theorem c2_interval_not_below_half_timeout :
    ¬ (2 * hospitalWatchdogConf.interval < hospitalWatchdogConf.watchdogTimeout) := by
  decide

/-- C2 amended: both configurations refresh strictly within the armed timeout
    (10 < 15 and 5 < 15); only the deploy configuration additionally keeps the
    refresh interval below half the timeout. -/
theorem c2_refresh_within_timeout :
    hospitalWatchdogConf.interval < hospitalWatchdogConf.watchdogTimeout ∧
    deployWatchdogConf.interval < deployWatchdogConf.watchdogTimeout ∧
    2 * deployWatchdogConf.interval < deployWatchdogConf.watchdogTimeout := by
  decide

/-- C3: for every staleness age, classification is Fresh when the age is at
    most the configured window and Stale when it exceeds it, and the
    hospital-monitor configuration sets that window to 90 seconds. -/
theorem c3_classification (a : Nat) :
    (a ≤ hospitalWatchdogConf.heartbeatChange →
      classify a hospitalWatchdogConf.heartbeatChange = Classification.Fresh) ∧
    (hospitalWatchdogConf.heartbeatChange < a →
      classify a hospitalWatchdogConf.heartbeatChange = Classification.Stale) ∧
    hospitalWatchdogConf.heartbeatChange = 90 := by
  refine ⟨fun h => ?_, fun h => ?_, rfl⟩
  · simp [classify, h]
  · simp [classify, Nat.not_le.mpr h]

/-- C3 witness: age 90 classifies Fresh and age 91 classifies Stale under the
    hospital-monitor configuration. -/
theorem c3_classification_witness :
    classify 90 hospitalWatchdogConf.heartbeatChange = Classification.Fresh ∧
    classify 91 hospitalWatchdogConf.heartbeatChange = Classification.Stale :=
  ⟨(c3_classification 90).1 (by decide), (c3_classification 91).2.1 (by decide)⟩

/-- C5: an absent, unreadable or malformed liveness record always observes as
    Stale with infinite age; observe is total, so no such read ever fails. -/
theorem c5_corrupt_record_is_maximally_stale (now stale : Nat) (r : ReadResult)
    (h : r.isCorrupt = true) :
    observe now stale r = Observation.mk none Classification.Stale := by
  cases r with
  | absent => rfl
  | unreadable => rfl
  | malformed raw => rfl
  | valid t => simp [ReadResult.isCorrupt] at h

/-- C5 witness: an absent record at time 100 with a 90 s window observes as
    Stale with infinite age. -/
theorem c5_corrupt_record_witness :
    ReadResult.absent.isCorrupt = true ∧
    observe 100 90 ReadResult.absent = Observation.mk none Classification.Stale :=
  ⟨rfl, c5_corrupt_record_is_maximally_stale 100 90 ReadResult.absent rfl⟩

/-- C10: the password form issues a request exactly when the new password
    equals its confirmation and has length at least 6; each violating input is
    rejected with the matching toast and the field values are returned
    unchanged. -/
theorem c10_password_gate (s : PasswordForm) :
    (s.newPassword = s.confirmPassword → 6 ≤ s.newPassword.length →
      handleSubmit s = SubmitOutcome.submitted s.currentPassword s.newPassword) ∧
    (s.newPassword ≠ s.confirmPassword →
      handleSubmit s = SubmitOutcome.rejected PasswordToast.passwordsDoNotMatch s) ∧
    (s.newPassword = s.confirmPassword → s.newPassword.length < 6 →
      handleSubmit s = SubmitOutcome.rejected PasswordToast.passwordTooShort s) := by
  refine ⟨fun he hl => ?_, fun hne => ?_, fun he hl => ?_⟩
  · have hl' : ¬ s.confirmPassword.length < 6 := by rw [← he]; exact Nat.not_lt.mpr hl
    simp [handleSubmit, he, hl']
  · simp [handleSubmit, hne]
  · have hl' : s.confirmPassword.length < 6 := by rw [← he]; exact hl
    simp [handleSubmit, he, hl']

/-- C10 witness: a matching 7-character password is submitted; a mismatched
    confirmation and a 3-character password are rejected with their fields
    unchanged. -/
theorem c10_password_gate_witness :
    handleSubmit (PasswordForm.mk ("old") ("secret1") ("secret1")) =
      SubmitOutcome.submitted ("old") ("secret1") ∧
    handleSubmit (PasswordForm.mk ("old") ("secret1") ("secret2")) =
      SubmitOutcome.rejected PasswordToast.passwordsDoNotMatch
        (PasswordForm.mk ("old") ("secret1") ("secret2")) ∧
    handleSubmit (PasswordForm.mk ("old") ("abc") ("abc")) =
      SubmitOutcome.rejected PasswordToast.passwordTooShort
        (PasswordForm.mk ("old") ("abc") ("abc")) :=
  ⟨(c10_password_gate _).1 rfl (by decide),
   (c10_password_gate _).2.1 (by decide),
   (c10_password_gate _).2.2 rfl (by decide)⟩

/-- A resource sample: 1-minute load average and free memory pages. -/
structure ResourceSample where
  loadAverage1m : Nat
  freeMemoryPages : Nat
  deriving DecidableEq

/-- Modelled from the spec: a sample breaches when it exceeds the load ceiling
    or falls below the memory floor (the evaluating daemon is not among the
    sources; the ceilings max-load-1 and min-memory are). -/
def breaches (loadCeiling memoryFloorPages : Nat) (s : ResourceSample) : Bool :=
  decide (loadCeiling < s.loadAverage1m) || decide (s.freeMemoryPages < memoryFloorPages)

/-- Modelled from the spec: the consecutive-breach counter update; a breaching
    sample increments it, a single good sample resets it to zero. -/
def stepBreachCount (loadCeiling memoryFloorPages c : Nat) (s : ResourceSample) : Nat :=
  if breaches loadCeiling memoryFloorPages s then c + 1 else 0

/-- Counter values after each successive sample, starting from counter c. -/
def breachCounts (loadCeiling memoryFloorPages c : Nat) : List ResourceSample → List Nat
  | [] => []
  | s :: ss =>
      stepBreachCount loadCeiling memoryFloorPages c s ::
        breachCounts loadCeiling memoryFloorPages
          (stepBreachCount loadCeiling memoryFloorPages c s) ss

/-- Modelled from the spec: pressure is reported once the consecutive-breach
    counter reaches debounceCount. -/
def pressureAt (debounceCount c : Nat) : Bool :=
  decide (debounceCount ≤ c)

/-- Every counter reached while consuming only breaching samples is bounded by
    the starting counter plus the number of samples consumed. -/
theorem breachCounts_le_of_all_breach (lc mf : Nat) (l : List ResourceSample)
    (hall : ∀ s ∈ l, breaches lc mf s = true) :
    ∀ c, ∀ x ∈ breachCounts lc mf c l, x ≤ c + l.length := by
  induction l with
  | nil =>
      intro c x hx
      simp [breachCounts] at hx
  | cons s ss ih =>
      intro c x hx
      have hb : breaches lc mf s = true := hall s (by simp)
      simp only [breachCounts, stepBreachCount, hb, if_true, List.mem_cons] at hx
      rcases hx with h | h
      · simp only [h, List.length_cons]
        omega
      · have := ih (fun t ht => hall t (by simp [ht])) (c + 1) x h
        simp [List.length_cons]
        omega

/-- Counter traces distribute over appending sample runs. -/
theorem breachCounts_append (lc mf : Nat) (l1 l2 : List ResourceSample) :
    ∀ c, breachCounts lc mf c (l1 ++ l2) =
      breachCounts lc mf c l1 ++
        breachCounts lc mf (List.foldl (stepBreachCount lc mf) c l1) l2 := by
  induction l1 with
  | nil => intro c; rfl
  | cons s ss ih =>
      intro c
      simp only [List.cons_append, breachCounts, List.foldl_cons, List.append_eq, ih]

/-- C4: with debounce count D at least 1, a run of D−1 consecutive breaching
    samples followed by one non-breaching sample never reports pressure at any
    point, and a single good sample resets the consecutive-breach counter to
    zero. -/
theorem c4_debounce (lc mf D : Nat) (bad : List ResourceSample) (good : ResourceSample)
    (hD : 1 ≤ D) (hlen : bad.length = D - 1)
    (hbad : ∀ s ∈ bad, breaches lc mf s = true)
    (hgood : breaches lc mf good = false) :
    ((breachCounts lc mf 0 (bad ++ [good])).all fun x => ! pressureAt D x) = true ∧
    (∀ c s', breaches lc mf s' = false → stepBreachCount lc mf c s' = 0) := by
  constructor
  · rw [List.all_eq_true]
    intro x hx
    rw [breachCounts_append] at hx
    rw [List.mem_append] at hx
    rcases hx with h | h
    · have hle := breachCounts_le_of_all_breach lc mf bad hbad 0 x h
      have hlt : x < D := by omega
      simp [pressureAt]
      omega
    · simp only [breachCounts, stepBreachCount, hgood, if_false, List.mem_singleton] at h
      simp [h, pressureAt]
      omega
  · intro c s' hs'
    simp [stepBreachCount, hs']

/-- C4 witness: with ceiling 24, floor 1 and debounce 3, two breaching samples
    followed by a good one never report pressure. -/
theorem c4_debounce_witness :
    ((breachCounts 24 1 0 ([ResourceSample.mk 30 5, ResourceSample.mk 30 5] ++
        [ResourceSample.mk 0 5])).all fun x => ! pressureAt 3 x) = true :=
  (c4_debounce 24 1 3 [ResourceSample.mk 30 5, ResourceSample.mk 30 5]
    (ResourceSample.mk 0 5) (by decide) (by decide) (by decide) (by decide)).1

/-- Actions touching the watchdog daemon in the shell tooling: the vocabulary
    covers the setup-resilience script (part_002) and the disable path of the
    interactive fix script (part_000). -/
inductive ResilienceAction where
  | checkRoot
  | stopWatchdogDaemon
  | disableWatchdogDaemon
  | keepHardwareWatchdogOn
  | writeMonitorService
  | writeWebService
  | daemonReload
  | enableMonitorService
  | enableWebService
  | promptConfirmation
  deriving DecidableEq

/-- The setup-resilience script (part_002) in source order: its first working
    step stops and disables the watchdog daemon, and the script never prompts
    for a confirmation. -/
def setupResilienceScript : List ResilienceAction :=
  [ResilienceAction.checkRoot, ResilienceAction.stopWatchdogDaemon,
   ResilienceAction.disableWatchdogDaemon, ResilienceAction.keepHardwareWatchdogOn,
   ResilienceAction.writeMonitorService, ResilienceAction.writeWebService,
   ResilienceAction.daemonReload, ResilienceAction.enableMonitorService,
   ResilienceAction.enableWebService]

/-- The disable_watchdog path of the fix script (part_000): a confirmation is
    read first, and the daemon is stopped only when the answer is "s" or "S";
    any other answer cancels the operation. -/
def disableWatchdogScript (confirm : String) : List ResilienceAction :=
  if confirm = ("s") ∨ confirm = ("S") then
    [ResilienceAction.promptConfirmation, ResilienceAction.stopWatchdogDaemon]
  else
    [ResilienceAction.promptConfirmation]

/-- C6 counterexample: the setup-resilience script stops the watchdog daemon
    while containing no confirmation prompt at all, so not every transition to
    disarmed is preceded by an operator confirmation. -/
theorem c6_resilience_disarms_without_confirmation :
    ResilienceAction.stopWatchdogDaemon ∈ setupResilienceScript ∧
    ResilienceAction.promptConfirmation ∉ setupResilienceScript := by
  decide

/-- C6 amended: in the interactive fix script the disarm runs exactly when the
    operator answers the confirmation prompt with "s" or "S", and the prompt is
    always the first action of that path; the setup-resilience script, by
    contrast, disarms the daemon without any prompt. -/
theorem c6_fix_script_disarm_needs_confirmation (confirm : String) :
    (ResilienceAction.stopWatchdogDaemon ∈ disableWatchdogScript confirm ↔
      confirm = ("s") ∨ confirm = ("S")) ∧
    (disableWatchdogScript confirm).head? = some ResilienceAction.promptConfirmation := by
  by_cases h : confirm = ("s") ∨ confirm = ("S") <;>
    simp [disableWatchdogScript, h]

/-- Field types occurring in the web API client's TypeScript interfaces. -/
inductive FieldType where
  | boolField
  | stringField
  | numberField
  deriving DecidableEq

/-- The ServiceStatus interface of the web API client (part_007): exactly the
    fields running (boolean), enabled (boolean) and status (string), the shape
    returned by getServiceStatus. -/
def serviceStatusFields : List (String × FieldType) :=
  [(("running"), FieldType.boolField), (("enabled"), FieldType.boolField),
   (("status"), FieldType.stringField)]

/-- C7 counterexample: the status response carries exactly three fields, named
    running, enabled and status, with no numeric field at all, so it cannot
    return the four items of the claim; in particular neither a last restart
    time nor a remaining restart budget is part of the response. -/
theorem c7_status_lacks_budget_and_restart_time :
    serviceStatusFields.map Prod.fst = [("running"), ("enabled"), ("status")] ∧
    serviceStatusFields.length = 3 ∧
    ¬ (4 ≤ serviceStatusFields.length) ∧
    ((serviceStatusFields.all fun f => ! decide (f.2 = FieldType.numberField)) = true) := by
  decide

/-- C7 amended: the operator-facing status returns the running flag, the
    enabled flag and a status string, and nothing else. -/
theorem c7_status_returns_running_enabled_status :
    (("running"), FieldType.boolField) ∈ serviceStatusFields ∧
    (("enabled"), FieldType.boolField) ∈ serviceStatusFields ∧
    (("status"), FieldType.stringField) ∈ serviceStatusFields ∧
    serviceStatusFields.length = 3 := by
  decide

/-- Badge rendered by getCategoryBadge in the log viewer (part_005): three
    dedicated badges plus a generic fallback showing the raw category. -/
inductive CategoryBadge where
  | alertaBadge
  | transicaoBadge
  | sistemaBadge
  | genericBadge (raw : String)
  deriving DecidableEq

/-- getCategoryBadge of the LogViewer (part_005). -/
def getCategoryBadge (category : String) : CategoryBadge :=
  if category = ("ALERTA") then CategoryBadge.alertaBadge
  else if category = ("TRANSICAO") then CategoryBadge.transicaoBadge
  else if category = ("SISTEMA") then CategoryBadge.sistemaBadge
  else CategoryBadge.genericBadge category

/-- Badge rendered by getLevelBadge in the log viewer (part_005): ERROR and
    WARNING get dedicated badges, anything else falls back to the INFO badge. -/
inductive LevelBadge where
  | errorBadge
  | warningBadge
  | infoBadge
  deriving DecidableEq

/-- getLevelBadge of the LogViewer (part_005). -/
def getLevelBadge (level : String) : LevelBadge :=
  if level = ("ERROR") then LevelBadge.errorBadge
  else if level = ("WARNING") then LevelBadge.warningBadge
  else LevelBadge.infoBadge

/-- The level filter options offered by the LogViewer select (part_005),
    besides the empty all-levels option. -/
def levelFilterOptions : List String :=
  [("INFO"), ("WARNING"), ("ERROR")]

/-- The category filter options offered by the LogViewer select (part_005),
    besides the empty all-categories option. -/
def categoryFilterOptions : List String :=
  [("SISTEMA"), ("TRANSICAO"), ("ALERTA")]

/-- Modelled from the spec: the closed level vocabulary of emitted log entries
    (the emitting backend is not among the sources; the viewer fixes the
    concrete strings). -/
inductive LogLevel where
  | info
  | warning
  | error
  deriving DecidableEq

/-- The level string written into a log entry. -/
def LogLevel.levelName : LogLevel → String
  | LogLevel.info => "INFO"
  | LogLevel.warning => "WARNING"
  | LogLevel.error => "ERROR"

/-- Modelled from the spec: the closed category vocabulary of emitted log
    entries, with the concrete strings the viewer recognises. -/
inductive LogCategory where
  | sistema
  | transicao
  | alerta
  deriving DecidableEq

/-- The category string written into a log entry. -/
def LogCategory.categoryName : LogCategory → String
  | LogCategory.sistema => "SISTEMA"
  | LogCategory.transicao => "TRANSICAO"
  | LogCategory.alerta => "ALERTA"

/-- Modelled from the spec: an emitted log entry {timestamp, level, category,
    details} with level and category drawn from the closed vocabularies, in the
    shape of the LogEntry interface (part_007). -/
structure EmittedLogEntry where
  timestamp : String
  level : LogLevel
  category : LogCategory
  details : String

/-- C8 counterexample: the code's category vocabulary is Portuguese: the
    string TRANSICAO has a dedicated badge, while the claimed TRANSITION (and
    likewise SYSTEM and ALERT) falls through to the generic fallback and is
    offered by no category filter option. -/
theorem c8_categories_are_portuguese :
    getCategoryBadge ("TRANSICAO") = CategoryBadge.transicaoBadge ∧
    getCategoryBadge ("TRANSITION") = CategoryBadge.genericBadge ("TRANSITION") ∧
    ("TRANSITION") ∉ categoryFilterOptions ∧
    ("SYSTEM") ∉ categoryFilterOptions ∧
    ("ALERT") ∉ categoryFilterOptions := by
  decide

/-- C8 amended: every emitted entry carries a level in {INFO, WARNING, ERROR}
    and a category in {SISTEMA, TRANSICAO, ALERTA}; these are exactly the
    viewer's filter vocabularies, each level renders its dedicated badge and no
    category falls through to the generic fallback. -/
theorem c8_log_entry_vocabulary (e : EmittedLogEntry) :
    e.level.levelName ∈ levelFilterOptions ∧
    e.category.categoryName ∈ categoryFilterOptions ∧
    (∀ raw, getCategoryBadge e.category.categoryName ≠ CategoryBadge.genericBadge raw) ∧
    (e.level = LogLevel.error → getLevelBadge e.level.levelName = LevelBadge.errorBadge) ∧
    (e.level = LogLevel.warning → getLevelBadge e.level.levelName = LevelBadge.warningBadge) ∧
    (e.level = LogLevel.info → getLevelBadge e.level.levelName = LevelBadge.infoBadge) := by
  obtain ⟨ts, lv, cat, dt⟩ := e
  cases lv <;> cases cat <;>
    simp [LogLevel.levelName, LogCategory.categoryName, levelFilterOptions,
      categoryFilterOptions, getCategoryBadge, getLevelBadge]

/-- Actions of the part_002 setup-watchdog script, in source order. -/
inductive WatchdogSetupAction where
  | enableBootWatchdog
  | installDaemon
  | writeConf
  | makeDirectories
  | touchHeartbeat
  | enableWatchdogService
  | restartWatchdogService
  deriving DecidableEq

/-- The part_002 setup-watchdog script: the heartbeat file is touched in step 4
    ("evitar reinicio imediato") and the daemon is enabled and started only in
    step 5. -/
def setupWatchdogScript : List WatchdogSetupAction :=
  [WatchdogSetupAction.enableBootWatchdog, WatchdogSetupAction.installDaemon,
   WatchdogSetupAction.writeConf, WatchdogSetupAction.makeDirectories,
   WatchdogSetupAction.touchHeartbeat, WatchdogSetupAction.enableWatchdogService,
   WatchdogSetupAction.restartWatchdogService]

/-- Host state tracked while the setup script runs: the heartbeat file's
    modification time, if the file exists, and the arming time of the daemon,
    if it has been started. -/
structure SetupState where
  heartbeatMtime : Option Nat
  armedAt : Option Nat
  deriving DecidableEq

/-- One script action executed at time t; only the heartbeat touch and the
    daemon restart change the tracked state. -/
def execAction (t : Nat) (st : SetupState) : WatchdogSetupAction → SetupState
  | WatchdogSetupAction.touchHeartbeat => SetupState.mk (some t) st.armedAt
  | WatchdogSetupAction.restartWatchdogService => SetupState.mk st.heartbeatMtime (some t)
  | _ => st

/-- Run timed script actions in order. -/
def runSetup : SetupState → List (Nat × WatchdogSetupAction) → SetupState
  | st, [] => st
  | st, (t, a) :: rest => runSetup (execAction t st a) rest

/-- Modelled from the spec: the daemon's heartbeat-file check at time now
    triggers a reset iff the file is missing (maximal staleness) or its age
    exceeds the change window. -/
def fileCheckTriggersReset (change now : Nat) (st : SetupState) : Bool :=
  match st.heartbeatMtime with
  | none => true
  | some m => decide (change < now - m)

/-- C9: the part_002 setup-watchdog script touches the heartbeat file strictly
    before enabling and starting the daemon, so, starting from a host with no
    heartbeat file, at arming time the file exists with the touch time as its
    modification time, and a first file check within the 90 s change window of
    the touch does not trigger a reset. -/
theorem c9_touch_precedes_arming (t1 t2 t3 t4 t5 t6 t7 now : Nat)
    (hcheck : now - t5 ≤ hospitalWatchdogConf.heartbeatChange) :
    (setupWatchdogScript.indexOf WatchdogSetupAction.touchHeartbeat <
       setupWatchdogScript.indexOf WatchdogSetupAction.enableWatchdogService ∧
     setupWatchdogScript.indexOf WatchdogSetupAction.touchHeartbeat <
       setupWatchdogScript.indexOf WatchdogSetupAction.restartWatchdogService) ∧
    runSetup (SetupState.mk none none)
        (List.zip [t1, t2, t3, t4, t5, t6, t7] setupWatchdogScript) =
      SetupState.mk (some t5) (some t7) ∧
    fileCheckTriggersReset hospitalWatchdogConf.heartbeatChange now
        (runSetup (SetupState.mk none none)
          (List.zip [t1, t2, t3, t4, t5, t6, t7] setupWatchdogScript)) = false := by
  refine ⟨by decide, rfl, ?_⟩
  show fileCheckTriggersReset hospitalWatchdogConf.heartbeatChange now
    (SetupState.mk (some t5) (some t7)) = false
  have h90 : hospitalWatchdogConf.heartbeatChange = 90 := rfl
  rw [h90] at hcheck ⊢
  simp only [fileCheckTriggersReset, decide_eq_false_iff_not]
  omega

/-- C9 witness: with the script steps at times 1..7 and the first check at
    time 10, the heartbeat exists, was touched at time 5 before arming at
    time 7, and the check does not trigger a reset. -/
theorem c9_touch_precedes_arming_witness :
    (10 : Nat) - 5 ≤ hospitalWatchdogConf.heartbeatChange ∧
    runSetup (SetupState.mk none none)
        (List.zip [1, 2, 3, 4, 5, 6, 7] setupWatchdogScript) =
      SetupState.mk (some 5) (some 7) ∧
    fileCheckTriggersReset hospitalWatchdogConf.heartbeatChange 10
        (runSetup (SetupState.mk none none)
          (List.zip [1, 2, 3, 4, 5, 6, 7] setupWatchdogScript)) = false :=
  ⟨by decide, (c9_touch_precedes_arming 1 2 3 4 5 6 7 10 (by decide)).2.1,
   (c9_touch_precedes_arming 1 2 3 4 5 6 7 10 (by decide)).2.2⟩

/-- Modelled from the spec: the ProcessSupervisor restart budget
    {count, windowStart, windowDuration, maxPerWindow}. The supervisor itself
    is not among the sources; the deployed systemd units delegate restarts with
    the rate limit disabled, so the budget logic follows the specification. -/
structure RestartBudget where
  count : Nat
  windowStart : Nat
  windowDuration : Nat
  maxPerWindow : Nat
  deriving DecidableEq

/-- Modelled from the spec: the count resets to 0 once a full window has
    elapsed since windowStart, and the window then restarts at now. -/
def rollWindow (now : Nat) : RestartBudget → RestartBudget
  | RestartBudget.mk c t0 w k =>
      if w ≤ now - t0 then RestartBudget.mk 0 now w k else RestartBudget.mk c t0 w k

/-- Modelled from the spec: a restart attempt at time now. After rolling the
    window, the relaunch is executed (true) iff the budget has capacity, which
    consumes one unit; otherwise the attempt is deferred (false) and the budget
    is unchanged. -/
def attemptRestart (now : Nat) (b : RestartBudget) : Bool × RestartBudget :=
  match rollWindow now b with
  | RestartBudget.mk c t0 w k =>
      if c < k then (true, RestartBudget.mk (c + 1) t0 w k)
      else (false, RestartBudget.mk c t0 w k)

/-- The relaunch decisions of a sequence of restart attempts at the given
    times, with the final budget. -/
def runAttempts (b : RestartBudget) : List Nat → List Bool × RestartBudget
  | [] => ([], b)
  | t :: ts =>
      ((attemptRestart t b).1 :: (runAttempts (attemptRestart t b).2 ts).1,
       (runAttempts (attemptRestart t b).2 ts).2)

/-- While every attempt stays inside the current window and capacity remains,
    every attempt relaunches and each one just increments the count. -/
theorem runAttempts_within_capacity (t0 w k : Nat) :
    ∀ (ts : List Nat) (c : Nat), (∀ t ∈ ts, t - t0 < w) → c + ts.length ≤ k →
      runAttempts (RestartBudget.mk c t0 w k) ts =
        (List.replicate ts.length true, RestartBudget.mk (c + ts.length) t0 w k) := by
  intro ts
  induction ts with
  | nil =>
      intro c _ _
      simp [runAttempts]
  | cons t ts ih =>
      intro c hin hcap
      have ht : t - t0 < w := hin t (by simp)
      have hroll : rollWindow t (RestartBudget.mk c t0 w k) = RestartBudget.mk c t0 w k := by
        simp only [rollWindow]
        split
        · exfalso; omega
        · rfl
      have hcnt : c < k := by
        simp only [List.length_cons] at hcap
        omega
      have hatt : attemptRestart t (RestartBudget.mk c t0 w k) =
          (true, RestartBudget.mk (c + 1) t0 w k) := by
        simp only [attemptRestart, hroll]
        rw [if_pos hcnt]
      have hin' : ∀ u ∈ ts, u - t0 < w := fun u hu => hin u (by simp [hu])
      have hcap' : (c + 1) + ts.length ≤ k := by
        simp only [List.length_cons] at hcap
        omega
      simp only [runAttempts, hatt]
      rw [ih (c + 1) hin' hcap']
      simp only [List.length_cons, List.replicate_succ]
      have hc : c + 1 + ts.length = c + (ts.length + 1) := by omega
      rw [hc]

/-- Attempt traces distribute over appending time lists. -/
theorem runAttempts_append (l1 l2 : List Nat) :
    ∀ b, runAttempts b (l1 ++ l2) =
      ((runAttempts b l1).1 ++ (runAttempts (runAttempts b l1).2 l2).1,
       (runAttempts (runAttempts b l1).2 l2).2) := by
  induction l1 with
  | nil =>
      intro b
      simp [runAttempts]
  | cons t l1 ih =>
      intro b
      simp [runAttempts, ih]

/-- C1: with a fresh budget of cap K over a window of length W starting at t0,
    K restart attempts inside the window all relaunch immediately, the (K+1)-th
    attempt inside the same window is deferred, never executed, and an attempt
    once the window has rolled over relaunches again. -/
theorem c1_budget_defers_excess_restart (t0 w k : Nat) (ts : List Nat) (tLast tNext : Nat)
    (hk : 0 < k) (hlen : ts.length = k)
    (hin : ∀ t ∈ ts, t - t0 < w) (hinLast : tLast - t0 < w) (hNext : w ≤ tNext - t0) :
    (runAttempts (RestartBudget.mk 0 t0 w k) (ts ++ [tLast])).1 =
      List.replicate k true ++ [false] ∧
    (attemptRestart tNext (runAttempts (RestartBudget.mk 0 t0 w k) (ts ++ [tLast])).2).1 =
      true := by
  have h1 := runAttempts_within_capacity t0 w k ts 0 hin (by omega)
  rw [Nat.zero_add, hlen] at h1
  have hrollLast : rollWindow tLast (RestartBudget.mk k t0 w k) =
      RestartBudget.mk k t0 w k := by
    simp only [rollWindow]
    split
    · exfalso; omega
    · rfl
  have hattLast : attemptRestart tLast (RestartBudget.mk k t0 w k) =
      (false, RestartBudget.mk k t0 w k) := by
    simp only [attemptRestart, hrollLast]
    rw [if_neg (lt_irrefl k)]
  have h2 : runAttempts (RestartBudget.mk k t0 w k) [tLast] =
      ([false], RestartBudget.mk k t0 w k) := by
    simp [runAttempts, hattLast]
  have hrun : runAttempts (RestartBudget.mk 0 t0 w k) (ts ++ [tLast]) =
      (List.replicate k true ++ [false], RestartBudget.mk k t0 w k) := by
    rw [runAttempts_append, h1, h2]
  refine ⟨by rw [hrun], ?_⟩
  rw [hrun]
  have hrollNext : rollWindow tNext (RestartBudget.mk k t0 w k) =
      RestartBudget.mk 0 tNext w k := by
    simp only [rollWindow]
    rw [if_pos hNext]
  simp only [attemptRestart, hrollNext]
  rw [if_pos hk]

/-- C1 witness: cap 2, window 60 starting at 0, failures at times 0, 1, 2: the
    first two restarts execute, the third is deferred, and an attempt at time
    60, when the window has rolled over, executes again. -/
theorem c1_budget_defers_excess_restart_witness :
    (runAttempts (RestartBudget.mk 0 0 60 2) ([0, 1] ++ [2])).1 =
      List.replicate 2 true ++ [false] ∧
    (attemptRestart 60 (runAttempts (RestartBudget.mk 0 0 60 2) ([0, 1] ++ [2])).2).1 =
      true :=
  c1_budget_defers_excess_restart 0 60 2 [0, 1] 2 60 (by decide) (by decide)
    (by decide) (by decide) (by decide)
